import Mathlib

/-!
# TelegramAuth (telegram-auth.js v3.0)

A shallow embedding of the `TelegramAuth` class: the client object is a record, the
browser surroundings it touches (status elements, interval timers, the network, the
clock) are a second record `World`, and every method is a function from the two
records and the outcome of its single `fetch` to the returned value and the two
records afterwards.

Modelling conventions
* JavaScript values are the primitives of `JSVal`; numbers are integers.
* An `async` method runs to completion as one step; the answer of its one `fetch`
  is an argument (`FetchOutcome`).
* A `try`/`catch` is a value of `Except String _` that the method matches on; the
  string is the `message` of the thrown error.
* The host object of the Telegram SDK, when present, offers its whole capability set
  (`ready`, `expand`, `initData`, `initDataUnsafe`, `onEvent`, `BackButton.onClick`).
* `console.log` / `console.error` are not recorded.
-/

namespace TelegramAuthJS

/-! ## JavaScript values -/

/-- JavaScript primitive values. -/
inductive JSVal where
  | undefined
  | null
  | bool (b : Bool)
  | num (n : Int)
  | str (s : String)
  deriving DecidableEq, Repr

/-- Truthiness, as tested by `if (x)`, `!x` and `x || y`. -/
def JSVal.truthy : JSVal → Bool
  | .undefined => false
  | .null => false
  | .bool b => b
  | .num n => n != 0
  | .str s => s != ""

/-- String conversion, as done by a template literal and by `new Error(x)`. -/
def JSVal.toStr : JSVal → String
  | .undefined => "undefined"
  | .null => "null"
  | .bool true => "true"
  | .bool false => "false"
  | .num n => toString n
  | .str s => s

/-- The operator `a || b`. -/
def JSVal.or (a b : JSVal) : JSVal :=
  if a.truthy then a else b

/-- An optional string property of a host object: absent reads as `undefined`. -/
def JSVal.ofStr? : Option String → JSVal
  | none => .undefined
  | some s => .str s

/-- An optional boolean property of a host object: absent reads as `undefined`. -/
def JSVal.ofBool? : Option Bool → JSVal
  | none => .undefined
  | some b => .bool b

/-! ## Host payload and identity -/

/-- The `user` record of `initDataUnsafe` (Telegram `WebAppUser`): `id` is a number or a
string, the text fields are strings when present, `is_premium` a boolean when present. -/
structure HostUser where
  id : JSVal
  username : Option String
  first_name : Option String
  last_name : Option String
  language_code : Option String
  is_premium : Option Bool
  deriving DecidableEq, Repr

/-- The object `tg.initDataUnsafe`; `user = none` when the field is absent. -/
structure InitDataUnsafe where
  user : Option HostUser
  deriving DecidableEq, Repr

/-- The host object `window.Telegram.WebApp`. -/
structure WebApp where
  initData : String
  initDataUnsafe : InitDataUnsafe
  deriving DecidableEq, Repr

/-- The object stored in `this.user` (lines 38-45). -/
structure Identity where
  id : JSVal
  username : JSVal
  first_name : JSVal
  last_name : JSVal
  language_code : JSVal
  is_premium : JSVal
  deriving DecidableEq, Repr

/-- The object literal of lines 38-45, built from the host's user record. -/
def mkIdentity (u : HostUser) : Identity where
  id := u.id
  username := (JSVal.ofStr? u.username).or (.str ("user_" ++ u.id.toStr))
  first_name := (JSVal.ofStr? u.first_name).or (.str "")
  last_name := (JSVal.ofStr? u.last_name).or (.str "")
  language_code := (JSVal.ofStr? u.language_code).or (.str "en")
  is_premium := (JSVal.ofBool? u.is_premium).or (.bool false)

/-! ## Network -/

/-- A value of a property in a request body handed to `JSON.stringify`. -/
inductive Field where
  | val (v : JSVal)
  | user (u : Option Identity)
  | isoTime (ms : Nat)
  deriving DecidableEq, Repr

/-- A `fetch` call: the URL and the properties of the body object, in source order.
Every call is a POST with content type `application/json`. -/
structure Request where
  url : String
  body : List (String × Field)
  deriving DecidableEq, Repr

/-- The properties of a parsed response body that the client reads; an absent property
is `undefined`. -/
structure JsonObj where
  success : JSVal
  session_id : JSVal
  message : JSVal
  user_data : JSVal
  deriving DecidableEq, Repr

/-- A parsed response body: JSON `null`, or a value whose properties can be read. -/
inductive Json where
  | null
  | obj (o : JsonObj)
  deriving DecidableEq, Repr

/-- A resolved `fetch`: `ok`, `status`, and what `response.json()` settles to
(`.error m` when parsing rejects with message `m`). -/
structure Response where
  ok : Bool
  status : Nat
  json : Except String Json

/-- What a `fetch` settles to: `.error m` when the request itself rejects. -/
abbrev FetchOutcome := Except String Response

/-! ## Surroundings -/

/-- The status element `loadingText`. -/
structure StatusText where
  textContent : String
  color : String
  deriving DecidableEq, Repr

/-- The three elements looked up by id; `none` when `getElementById` finds nothing. -/
structure Dom where
  loadingText : Option StatusText
  loadingIndicator : Option String
  videoContainer : Option String
  deriving DecidableEq, Repr

/-- Everything outside the client object that its methods read or change. -/
structure World where
  dom : Dom
  /-- the value of `Date.now()` -/
  now : Nat
  /-- handles of the interval timers that are active -/
  timers : List Nat
  /-- the last handle `setInterval` gave out -/
  lastHandle : Nat
  /-- every `fetch` made so far with what it settled to, oldest first -/
  log : List (Request × FetchOutcome)
  /-- names of the events a handler was registered for, oldest first -/
  listeners : List String
  /-- calls made on the host object, oldest first -/
  hostCalls : List String

/-- One `fetch(url, ...)` that settles to `net`. -/
def World.fetch (w : World) (req : Request) (net : FetchOutcome) : World :=
  { w with log := w.log ++ [(req, net)] }

/-- The call `setInterval(f, 30000)`: a new positive handle, now active. -/
def World.setInterval (w : World) : Nat × World :=
  (w.lastHandle + 1, { w with lastHandle := w.lastHandle + 1, timers := (w.lastHandle + 1) :: w.timers })

/-- The call `clearInterval(h)`. -/
def World.clearInterval (w : World) (h : Nat) : World :=
  { w with timers := w.timers.filter (fun k => k != h) }

/-- Registration of handlers for the given events. -/
def World.listen (w : World) (events : List String) : World :=
  { w with listeners := w.listeners ++ events }

/-- The method `showError` (lines 282-288). -/
def showError (w : World) (message : String) : World :=
  match w.dom.loadingText with
  | some _ => { w with dom := { w.dom with loadingText := some ⟨"❌ " ++ message, "#f44336"⟩ } }
  | none => w

/-- The method `showSuccess` (lines 290-296). -/
def showSuccess (w : World) (message : String) : World :=
  match w.dom.loadingText with
  | some _ => { w with dom := { w.dom with loadingText := some ⟨"✅ " ++ message, "#4CAF50"⟩ } }
  | none => w

/-- The method `updateUI` (lines 268-279). -/
def updateUI (w : World) : World :=
  { w with dom :=
      { w.dom with
        loadingIndicator := w.dom.loadingIndicator.map (fun _ => "none")
        videoContainer := w.dom.videoContainer.map (fun _ => "block") } }

/-! ## The client -/

/-- The fields of a `TelegramAuth` object. -/
structure TelegramAuth where
  tg : Option WebApp
  user : Option Identity
  sessionId : JSVal
  lastActivityTime : Nat
  activityInterval : Option Nat
  isAuthorized : Bool
  deriving DecidableEq, Repr

/-- The constructor (lines 7-14); `tg` is `window.Telegram?.WebApp`. -/
def TelegramAuth.new (tg : Option WebApp) (now : Nat) : TelegramAuth where
  tg := tg
  user := none
  sessionId := .null
  lastActivityTime := now
  activityInterval := none
  isAuthorized := false

/-- What a method call leaves behind: the settled value (`.error` if the call throws),
the client and the surroundings. -/
structure Outcome (α : Type) where
  ret : Except String α
  self : TelegramAuth
  world : World

/-- The `fetch` arguments of `authorizeOnServer` (lines 69-79). -/
def loginRequest (user : Option Identity) (initData : String) : Request :=
  ⟨"auth/telegram_auth.php",
    [("action", .val (.str "login")), ("user", .user user), ("init_data", .val (.str initData))]⟩

/-- The `fetch` arguments of `updateActivity` (lines 139-149); `now` is the time that
`new Date().toISOString()` renders. -/
def activityRequest (userId sessionId : JSVal) (now : Nat) : Request :=
  ⟨"auth/update_activity.php",
    [("user_id", .val userId), ("session_id", .val sessionId), ("last_activity", .isoTime now)]⟩

/-- The `fetch` arguments of `logout` (lines 163-173). -/
def logoutRequest (userId sessionId : JSVal) : Request :=
  ⟨"auth/telegram_auth.php",
    [("action", .val (.str "logout")), ("user_id", .val userId), ("session_id", .val sessionId)]⟩

/-- The `fetch` arguments of `getUserData` (lines 191-200). -/
def userDataRequest (userId : JSVal) (now : Nat) : Request :=
  ⟨"auth/get_user_data.php?cachebuster=" ++ toString now, [("user_id", .val userId)]⟩

/-- The `fetch` arguments of `toggleFavorite` and `updateReaction` (lines 219-229,
244-254). -/
def userActionRequest (userId action videoId : JSVal) : Request :=
  ⟨"auth/update_user_data.php",
    [("user_id", .val userId), ("action", .val action), ("video_id", .val videoId)]⟩

/-- The `try` block of `authorizeOnServer` after the `fetch` (lines 81-94): the session id
to store, or the message of the error thrown. -/
def authorizeOnServer_try (net : FetchOutcome) : Except String JSVal :=
  match net with
  | .error m => .error m
  | .ok response =>
    if !response.ok then .error ("HTTP error! status: " ++ toString response.status)
    else
      match response.json with
      | .error m => .error m
      | .ok .null => .error "Cannot read properties of null"
      | .ok (.obj result) =>
        if result.success.truthy then .ok result.session_id
        else .error (result.message.or (.str "Ошибка авторизации")).toStr

/-- The method `authorizeOnServer` (lines 67-100). -/
def authorizeOnServer (self : TelegramAuth) (w : World) (net : FetchOutcome) : Outcome Bool :=
  match self.tg with
  | none =>
    -- reading this.tg.initData throws inside the try block, before the fetch
    ⟨.ok false, self, showError w ("Ошибка авторизации: " ++ "Cannot read properties of undefined")⟩
  | some tg =>
    let w1 := w.fetch (loginRequest self.user tg.initData) net
    match authorizeOnServer_try net with
    | .ok sid => ⟨.ok true, { self with sessionId := sid }, showSuccess w1 "Авторизация успешна!"⟩
    | .error m => ⟨.ok false, self, showError w1 ("Ошибка авторизации: " ++ m)⟩

/-- The method `startActivityTracking` (lines 103-132). -/
def startActivityTracking (self : TelegramAuth) (w : World) : TelegramAuth × World :=
  let (h, w1) := w.setInterval
  let self1 := { self with activityInterval := some h }
  let w2 := w1.listen ["click", "touchstart", "scroll", "keypress"]
  let w3 := w2.listen ["beforeunload"]
  let w4 := if self.tg.isSome then w3.listen ["viewportChanged", "BackButton.click"] else w3
  (self1, w4)

/-- The method `init` (lines 17-64). -/
def init (self : TelegramAuth) (w : World) (net : FetchOutcome) : Outcome Bool :=
  match self.tg with
  | none => ⟨.ok false, self, showError w "Приложение должно быть открыто через Telegram"⟩
  | some tg =>
    let w0 := { w with hostCalls := w.hostCalls ++ ["ready", "expand"] }
    match tg.initDataUnsafe.user with
    | some hostUser =>
      let self1 := { self with user := some (mkIdentity hostUser) }
      let auth := authorizeOnServer self1 w0 net
      match auth.ret with
      | .ok true =>
        let self2 := { auth.self with isAuthorized := true }
        let (self3, w3) := startActivityTracking self2 auth.world
        ⟨.ok true, self3, updateUI w3⟩
      | .ok false => ⟨.ok false, auth.self, auth.world⟩
      | .error m => ⟨.error m, auth.self, auth.world⟩
    | none => ⟨.ok false, self, showError w0 "Не удалось получить данные пользователя"⟩

/-- The method `updateActivity` (lines 135-156). -/
def updateActivity (self : TelegramAuth) (w : World) (net : FetchOutcome) : Outcome Unit :=
  if !self.sessionId.truthy then ⟨.ok (), self, w⟩
  else
    match self.user with
    | none => ⟨.ok (), self, w⟩  -- reading this.user.id throws inside the try block
    | some u =>
      ⟨.ok (), self, w.fetch (activityRequest u.id self.sessionId w.now) net⟩

/-- The method `logout` (lines 159-184). -/
def logout (self : TelegramAuth) (w : World) (net : FetchOutcome) : Outcome Unit :=
  if !self.sessionId.truthy then ⟨.ok (), self, w⟩
  else
    let w1 :=
      match self.user with
      | none => w  -- reading this.user.id throws inside the try block
      | some u => w.fetch (logoutRequest u.id self.sessionId) net
    match self.activityInterval with
    | some h => if h != 0 then ⟨.ok (), self, w1.clearInterval h⟩ else ⟨.ok (), self, w1⟩
    | none => ⟨.ok (), self, w1⟩

/-- The `try` block of `getUserData` after the `fetch` (lines 202-206): `some v` when the
block returns `v`, `none` when it falls through. -/
def getUserData_try (net : FetchOutcome) : Except String (Option JSVal) :=
  match net with
  | .error m => .error m
  | .ok response =>
    match response.json with
    | .error m => .error m
    | .ok .null => .error "Cannot read properties of null"
    | .ok (.obj result) => if result.success.truthy then .ok (some result.user_data) else .ok none

/-- The method `getUserData` (lines 187-212). -/
def getUserData (self : TelegramAuth) (w : World) (net : FetchOutcome) : Outcome JSVal :=
  match self.user with
  | none => ⟨.ok .null, self, w⟩
  | some u =>
    let w1 := w.fetch (userDataRequest u.id w.now) net
    match getUserData_try net with
    | .ok (some v) => ⟨.ok v, self, w1⟩
    | .ok none => ⟨.ok .null, self, w1⟩
    | .error _ => ⟨.ok .null, self, w1⟩

/-- The `try` block of `toggleFavorite` and of `updateReaction` after the `fetch`
(lines 231-232, 256-260): the value of `result.success`. -/
def readSuccess (net : FetchOutcome) : Except String JSVal :=
  match net with
  | .error m => .error m
  | .ok response =>
    match response.json with
    | .error m => .error m
    | .ok .null => .error "Cannot read properties of null"
    | .ok (.obj result) => .ok result.success

/-- The method `toggleFavorite` (lines 215-237). -/
def toggleFavorite (self : TelegramAuth) (w : World) (videoId : JSVal) (net : FetchOutcome) : Outcome JSVal :=
  match self.user with
  | none => ⟨.ok (.bool false), self, w⟩
  | some u =>
    let w1 := w.fetch (userActionRequest u.id (.str "toggle_favorite") videoId) net
    match readSuccess net with
    | .ok v => ⟨.ok v, self, w1⟩
    | .error _ => ⟨.ok (.bool false), self, w1⟩

/-- The method `updateReaction` (lines 240-265). -/
def updateReaction (self : TelegramAuth) (w : World) (action videoId : JSVal) (net : FetchOutcome) :
    Outcome JSVal :=
  match self.user with
  | none => ⟨.ok (.bool false), self, w⟩
  | some u =>
    let w1 := w.fetch (userActionRequest u.id action videoId) net
    match readSuccess net with
    | .ok v => ⟨.ok v, self, w1⟩
    | .error _ => ⟨.ok (.bool false), self, w1⟩

/-- The method `isUserAuthorized` (lines 299-301). -/
def isUserAuthorized (self : TelegramAuth) : Bool :=
  self.isAuthorized && self.user.isSome

/-- The method `getUserId` (lines 304-306). -/
def getUserId (self : TelegramAuth) : JSVal :=
  match self.user with
  | none => JSVal.undefined.or .null
  | some u => u.id.or .null

/-- The method `getUsername` (lines 309-311). -/
def getUsername (self : TelegramAuth) : JSVal :=
  match self.user with
  | none => JSVal.undefined.or .null
  | some u => u.username.or .null

/-! ## Runs of the client -/

/-- Something that happens to the client: a method call with what its `fetch` settles
to, or a change of its surroundings. -/
inductive Op where
  | init (net : FetchOutcome)
  | logout (net : FetchOutcome)
  | updateActivity (net : FetchOutcome)
  | getUserData (net : FetchOutcome)
  | toggleFavorite (videoId : JSVal) (net : FetchOutcome)
  | updateReaction (action videoId : JSVal) (net : FetchOutcome)
  /-- thirty seconds have passed for the interval timer with handle `h` -/
  | tick (h : Nat) (net : FetchOutcome)
  /-- a registered activity handler runs (lines 112, 124) -/
  | stamp
  /-- the clock moves to `now` -/
  | clock (now : Nat)
  /-- the host rewrites the fields of its `WebApp` object -/
  | host (p : WebApp)

/-- A 30-second tick of timer `h` (lines 105-107): the callback runs only while the
timer is active. -/
def tick (self : TelegramAuth) (w : World) (h : Nat) (net : FetchOutcome) : Outcome Unit :=
  if w.timers.contains h then updateActivity self w net else ⟨.ok (), self, w⟩

/-- One step of a run. -/
def step (st : TelegramAuth × World) : Op → TelegramAuth × World
  | .init net => ((init st.1 st.2 net).self, (init st.1 st.2 net).world)
  | .logout net => ((logout st.1 st.2 net).self, (logout st.1 st.2 net).world)
  | .updateActivity net => ((updateActivity st.1 st.2 net).self, (updateActivity st.1 st.2 net).world)
  | .getUserData net => ((getUserData st.1 st.2 net).self, (getUserData st.1 st.2 net).world)
  | .toggleFavorite v net => ((toggleFavorite st.1 st.2 v net).self, (toggleFavorite st.1 st.2 v net).world)
  | .updateReaction a v net =>
    ((updateReaction st.1 st.2 a v net).self, (updateReaction st.1 st.2 a v net).world)
  | .tick h net => ((tick st.1 st.2 h net).self, (tick st.1 st.2 h net).world)
  | .stamp => ({ st.1 with lastActivityTime := st.2.now }, st.2)
  | .clock now => (st.1, { st.2 with now := now })
  | .host p => ({ st.1 with tg := st.1.tg.map (fun _ => p) }, st.2)

/-- A run: the steps in order. -/
def run (ops : List Op) (st : TelegramAuth × World) : TelegramAuth × World :=
  ops.foldl step st

/-- The surroundings at page load: nothing fetched, no timer of the client active, no
handler registered. -/
def World.fresh (dom : Dom) (now lastHandle : Nat) : World where
  dom := dom
  now := now
  timers := []
  lastHandle := lastHandle
  log := []
  listeners := []
  hostCalls := []

/-- A client just constructed at page load. -/
def fresh (tg : Option WebApp) (dom : Dom) (now lastHandle : Nat) : TelegramAuth × World :=
  (TelegramAuth.new tg now, World.fresh dom now lastHandle)

/-! ## Reading the history of requests -/

/-- The `action` property of a request body. -/
def Request.action (r : Request) : Option Field :=
  (r.body.find? (fun kv => kv.1 == "action")).map (fun kv => kv.2)

/-- A login call: a request to the login endpoint with `action: "login"`. -/
def Request.isLogin (r : Request) : Bool :=
  r.url == "auth/telegram_auth.php" && r.action == some (.val (.str "login"))

/-- A logout call: a request to the login endpoint with `action: "logout"`. -/
def Request.isLogout (r : Request) : Bool :=
  r.url == "auth/telegram_auth.php" && r.action == some (.val (.str "logout"))

/-- The session id of an answer that reports success (an ok status and a body whose
`success` is truthy), `none` for every other answer. -/
def loginSuccess : FetchOutcome → Option JSVal
  | .ok ⟨true, _, .ok (.obj o)⟩ => if o.success.truthy then some o.session_id else none
  | _ => none

/-- Whether a login call has returned success since the last logout call. -/
def liveSession (log : List (Request × FetchOutcome)) : Bool :=
  log.foldl
    (fun live e =>
      if e.1.isLogin && (loginSuccess e.2).isSome then true
      else if e.1.isLogout then false
      else live)
    false

/-- The session id of the most recent login call that returned success, `null` when
there was none. -/
def lastSessionId (log : List (Request × FetchOutcome)) : JSVal :=
  log.foldl
    (fun sid e =>
      if e.1.isLogin then
        match loginSuccess e.2 with
        | some s => s
        | none => sid
      else sid)
    .null

/-- The heartbeat timer is running: `activityInterval` holds the (positive) handle of an
active interval timer. -/
def heartbeatRunning (self : TelegramAuth) (w : World) : Bool :=
  match self.activityInterval with
  | some h => h != 0 && w.timers.contains h
  | none => false

/-- The answer `{success: s, session_id: sid}` with an ok status. -/
def okAnswer (s sid message : JSVal) : FetchOutcome :=
  .ok ⟨true, 200, .ok (.obj ⟨s, sid, message, .undefined⟩)⟩

/-- A sample host user: only `id` and `first_name` present. -/
def sampleUser (id : JSVal) : HostUser :=
  ⟨id, none, some "Ann", none, none, none⟩

/-- A sample host object carrying `sampleUser id`. -/
def sampleHost (id : JSVal) : WebApp :=
  ⟨"query_id=1&hash=ab", ⟨some (sampleUser id)⟩⟩

/-- A sample page with the three elements present. -/
def sampleDom : Dom :=
  ⟨some ⟨"Загрузка...", ""⟩, some "block", some "none"⟩

/-! ## Invariants of a run -/

/-- A step that is not a successful login: `sessionId` and `isAuthorized` keep their
values, a stored identity stays stored, and the history grows by nothing that counts as
a successful login. -/
def Quiet (st st1 : TelegramAuth × World) : Prop :=
  st1.1.sessionId = st.1.sessionId
  ∧ st1.1.isAuthorized = st.1.isAuthorized
  ∧ (st.1.user.isSome = true → st1.1.user.isSome = true)
  ∧ lastSessionId st1.2.log = lastSessionId st.2.log

/-- A step that is a successful login. -/
def LoggedIn (st1 : TelegramAuth × World) : Prop :=
  st1.1.user.isSome = true
  ∧ st1.1.sessionId = lastSessionId st1.2.log

/-- The two facts that every step keeps. -/
def Inv (st : TelegramAuth × World) : Prop :=
  st.1.sessionId = lastSessionId st.2.log
  ∧ (st.1.isAuthorized = true → st.1.user.isSome = true)

/-! ## Helper facts -/

theorem showError_log (w : World) (m : String) : (showError w m).log = w.log := by
  unfold showError; split <;> rfl

theorem showError_timers (w : World) (m : String) : (showError w m).timers = w.timers := by
  unfold showError; split <;> rfl

theorem showError_lastHandle (w : World) (m : String) : (showError w m).lastHandle = w.lastHandle := by
  unfold showError; split <;> rfl

theorem showError_loadingText (w : World) (m : String) :
    (showError w m).dom.loadingText = w.dom.loadingText.map (fun _ => ⟨"❌ " ++ m, "#f44336"⟩) := by
  unfold showError; split <;> simp_all

theorem showSuccess_log (w : World) (m : String) : (showSuccess w m).log = w.log := by
  unfold showSuccess; split <;> rfl

theorem showSuccess_timers (w : World) (m : String) : (showSuccess w m).timers = w.timers := by
  unfold showSuccess; split <;> rfl

theorem showSuccess_lastHandle (w : World) (m : String) :
    (showSuccess w m).lastHandle = w.lastHandle := by
  unfold showSuccess; split <;> rfl

/-- The client after an `init()` whose login succeeds. -/
theorem init_ok_self (self : TelegramAuth) (w : World) (net : FetchOutcome) (tg : WebApp) (u : HostUser)
    (sid : JSVal) (htg : self.tg = some tg) (hu : tg.initDataUnsafe.user = some u)
    (h : authorizeOnServer_try net = .ok sid) :
    (init self w net).ret = .ok true
    ∧ (init self w net).self
        = { self with
            user := some (mkIdentity u), sessionId := sid, isAuthorized := true,
            activityInterval := some (w.lastHandle + 1) } := by
  unfold init
  simp only [htg, hu]
  simp only [authorizeOnServer, h]
  simp [startActivityTracking, World.setInterval, showSuccess_lastHandle, World.fetch]

/-- The surroundings after an `init()` whose login succeeds. -/
theorem init_ok_world (self : TelegramAuth) (w : World) (net : FetchOutcome) (tg : WebApp) (u : HostUser)
    (sid : JSVal) (htg : self.tg = some tg) (hu : tg.initDataUnsafe.user = some u)
    (h : authorizeOnServer_try net = .ok sid) :
    (init self w net).world.timers = (w.lastHandle + 1) :: w.timers
    ∧ (init self w net).world.log = w.log ++ [(loginRequest (some (mkIdentity u)) tg.initData, net)]
    ∧ (init self w net).world.lastHandle = w.lastHandle + 1 := by
  unfold init
  simp only [htg, hu]
  simp only [authorizeOnServer, h]
  simp only [startActivityTracking, World.setInterval, updateUI, World.listen]
  split <;>
    simp [showSuccess_lastHandle, showSuccess_timers, showSuccess_log, World.fetch]

/-- The outcome of an `init()` whose login fails. -/
theorem init_error (self : TelegramAuth) (w : World) (net : FetchOutcome) (tg : WebApp) (u : HostUser)
    (m : String) (htg : self.tg = some tg) (hu : tg.initDataUnsafe.user = some u)
    (h : authorizeOnServer_try net = .error m) :
    (init self w net).ret = .ok false
    ∧ (init self w net).self = { self with user := some (mkIdentity u) }
    ∧ (init self w net).world.timers = w.timers
    ∧ (init self w net).world.log = w.log ++ [(loginRequest (some (mkIdentity u)) tg.initData, net)]
    ∧ (init self w net).world.lastHandle = w.lastHandle
    ∧ (init self w net).world.dom.loadingText
        = w.dom.loadingText.map (fun _ => ⟨"❌ " ++ ("Ошибка авторизации: " ++ m), "#f44336"⟩) := by
  unfold init
  simp only [htg, hu]
  simp only [authorizeOnServer, h]
  simp [showError_lastHandle, showError_timers, showError_log, showError_loadingText, World.fetch]

/-- The outcome of an `init()` when the host payload has no user. -/
theorem init_no_user (self : TelegramAuth) (w : World) (net : FetchOutcome) (tg : WebApp)
    (htg : self.tg = some tg) (hu : tg.initDataUnsafe.user = none) :
    (init self w net).ret = .ok false
    ∧ (init self w net).self = self
    ∧ (init self w net).world.timers = w.timers
    ∧ (init self w net).world.log = w.log
    ∧ (init self w net).world.lastHandle = w.lastHandle := by
  unfold init
  simp only [htg, hu]
  simp [showError_lastHandle, showError_timers, showError_log]

/-- The outcome of an `init()` without a host object. -/
theorem init_no_host (self : TelegramAuth) (w : World) (net : FetchOutcome) (htg : self.tg = none) :
    (init self w net).ret = .ok false
    ∧ (init self w net).self = self
    ∧ (init self w net).world.timers = w.timers
    ∧ (init self w net).world.log = w.log
    ∧ (init self w net).world.lastHandle = w.lastHandle := by
  unfold init
  simp only [htg]
  simp [showError_lastHandle, showError_timers, showError_log]

/-- The stored identity does not depend on how the login goes. -/
theorem init_user (self : TelegramAuth) (w : World) (net : FetchOutcome) (tg : WebApp) (u : HostUser)
    (htg : self.tg = some tg) (hu : tg.initDataUnsafe.user = some u) :
    (init self w net).self.user = some (mkIdentity u) := by
  cases h : authorizeOnServer_try net with
  | ok sid => rw [(init_ok_self self w net tg u sid htg hu h).2]
  | error m => rw [(init_error self w net tg u m htg hu h).2.1]

/-- The `try` block on an ok answer whose `success` is truthy. -/
theorem authorizeOnServer_try_success (status : Nat) (o : JsonObj) (h : o.success.truthy = true) :
    authorizeOnServer_try (.ok ⟨true, status, .ok (.obj o)⟩) = .ok o.session_id := by
  simp [authorizeOnServer_try, h]

/-- The `try` block on an ok answer whose `success` is falsy. -/
theorem authorizeOnServer_try_failure (status : Nat) (o : JsonObj) (h : o.success.truthy = false) :
    authorizeOnServer_try (.ok ⟨true, status, .ok (.obj o)⟩)
      = .error (o.message.or (.str "Ошибка авторизации")).toStr := by
  simp [authorizeOnServer_try, h]

/-! ## The claims -/

/-- After a successful login, for every id of the host user (truthy or not): `init()` on a
fresh client returns true, `isUserAuthorized()` is true, the stored identity carries the
host's id, `sessionId` is `S`, `activityInterval` holds the positive handle of an active
interval timer, and `getUserId()` is the id when the id is truthy and `null` otherwise. -/
theorem init_success_any_id (tg : WebApp) (u : HostUser) (now status : Nat) (w : World)
    (o : JsonObj) (S : String)
    (hu : tg.initDataUnsafe.user = some u)
    (hs : o.success = .bool true) (hsid : o.session_id = .str S) :
    (init (TelegramAuth.new (some tg) now) w (.ok ⟨true, status, .ok (.obj o)⟩)).ret = .ok true
    ∧ isUserAuthorized (init (TelegramAuth.new (some tg) now) w (.ok ⟨true, status, .ok (.obj o)⟩)).self
        = true
    ∧ (init (TelegramAuth.new (some tg) now) w (.ok ⟨true, status, .ok (.obj o)⟩)).self.user.map
        (fun i => i.id) = some u.id
    ∧ getUserId (init (TelegramAuth.new (some tg) now) w (.ok ⟨true, status, .ok (.obj o)⟩)).self
        = (if u.id.truthy then u.id else .null)
    ∧ (init (TelegramAuth.new (some tg) now) w (.ok ⟨true, status, .ok (.obj o)⟩)).self.sessionId
        = .str S
    ∧ (∃ h, (init (TelegramAuth.new (some tg) now) w
          (.ok ⟨true, status, .ok (.obj o)⟩)).self.activityInterval = some h ∧ h ≠ 0)
    ∧ heartbeatRunning (init (TelegramAuth.new (some tg) now) w (.ok ⟨true, status, .ok (.obj o)⟩)).self
        (init (TelegramAuth.new (some tg) now) w (.ok ⟨true, status, .ok (.obj o)⟩)).world = true := by
  have htry := authorizeOnServer_try_success status o (by rw [hs]; rfl)
  obtain ⟨hret, hself⟩ := init_ok_self (TelegramAuth.new (some tg) now) w _ tg u _ rfl hu htry
  obtain ⟨htimers, -, -⟩ := init_ok_world (TelegramAuth.new (some tg) now) w _ tg u _ rfl hu htry
  refine ⟨hret, ?_, ?_, ?_, ?_, ⟨w.lastHandle + 1, ?_, by omega⟩, ?_⟩
  · rw [hself]; rfl
  · rw [hself]; rfl
  · rw [hself]; rfl
  · rw [hself]; exact hsid
  · rw [hself]
  · simp [heartbeatRunning, hself, htimers]

/-- C1 (the code at the failing input): the host payload carries a user with id `0` and the
login endpoint answers with an ok status and the body `{success: true, session_id: "S"}`.
After `init()` on a fresh client: `init()` returned true, `isUserAuthorized()` is true,
`sessionId` is `"S"`, the heartbeat timer is running, the stored identity has id `0`, and
`toggleFavorite` sends that id as `user_id`; but `getUserId()` is `null`, not the id `0`. -/
theorem C1_getUserId_drops_zero_id :
    (sampleHost (.num 0)).initDataUnsafe.user = some (sampleUser (.num 0))
    ∧ (sampleUser (.num 0)).id = .num 0
    ∧ (init (TelegramAuth.new (some (sampleHost (.num 0))) 0) (World.fresh sampleDom 0 0)
        (.ok ⟨true, 200, .ok (.obj ⟨.bool true, .str "S", .undefined, .undefined⟩)⟩)).ret = .ok true
    ∧ isUserAuthorized (init (TelegramAuth.new (some (sampleHost (.num 0))) 0) (World.fresh sampleDom 0 0)
        (.ok ⟨true, 200, .ok (.obj ⟨.bool true, .str "S", .undefined, .undefined⟩)⟩)).self = true
    ∧ (init (TelegramAuth.new (some (sampleHost (.num 0))) 0) (World.fresh sampleDom 0 0)
        (.ok ⟨true, 200, .ok (.obj ⟨.bool true, .str "S", .undefined, .undefined⟩)⟩)).self.sessionId
        = .str "S"
    ∧ heartbeatRunning
        (init (TelegramAuth.new (some (sampleHost (.num 0))) 0) (World.fresh sampleDom 0 0)
          (.ok ⟨true, 200, .ok (.obj ⟨.bool true, .str "S", .undefined, .undefined⟩)⟩)).self
        (init (TelegramAuth.new (some (sampleHost (.num 0))) 0) (World.fresh sampleDom 0 0)
          (.ok ⟨true, 200, .ok (.obj ⟨.bool true, .str "S", .undefined, .undefined⟩)⟩)).world = true
    ∧ (init (TelegramAuth.new (some (sampleHost (.num 0))) 0) (World.fresh sampleDom 0 0)
        (.ok ⟨true, 200, .ok (.obj ⟨.bool true, .str "S", .undefined, .undefined⟩)⟩)).self.user.map
        (fun i => i.id) = some (.num 0)
    ∧ ((toggleFavorite
          (init (TelegramAuth.new (some (sampleHost (.num 0))) 0) (World.fresh sampleDom 0 0)
            (.ok ⟨true, 200, .ok (.obj ⟨.bool true, .str "S", .undefined, .undefined⟩)⟩)).self
          (World.fresh sampleDom 0 0) (.num 42) (.error "Failed to fetch")).world.log.map
        (fun e => e.1.body.lookup "user_id")) = [some (.val (.num 0))]
    ∧ getUserId (init (TelegramAuth.new (some (sampleHost (.num 0))) 0) (World.fresh sampleDom 0 0)
        (.ok ⟨true, 200, .ok (.obj ⟨.bool true, .str "S", .undefined, .undefined⟩)⟩)).self = .null
    ∧ ¬ (getUserId (init (TelegramAuth.new (some (sampleHost (.num 0))) 0) (World.fresh sampleDom 0 0)
        (.ok ⟨true, 200, .ok (.obj ⟨.bool true, .str "S", .undefined, .undefined⟩)⟩)).self
          = (sampleUser (.num 0)).id) := by
  refine ⟨rfl, rfl, rfl, rfl, rfl, rfl, rfl, rfl, rfl, ?_⟩
  decide

/-- C2: when the host payload has no `user` field, `init()` returns false, makes no
request, and on a fresh client leaves `user` null, `sessionId` null, `isAuthorized` false
and `activityInterval` null; no timer is started. -/
theorem C2_init_no_user (tg : WebApp) (now : Nat) (w : World) (net : FetchOutcome)
    (hu : tg.initDataUnsafe.user = none) :
    (init (TelegramAuth.new (some tg) now) w net).ret = .ok false
    ∧ (init (TelegramAuth.new (some tg) now) w net).world.log = w.log
    ∧ (init (TelegramAuth.new (some tg) now) w net).self.user = none
    ∧ (init (TelegramAuth.new (some tg) now) w net).self.sessionId = .null
    ∧ (init (TelegramAuth.new (some tg) now) w net).self.isAuthorized = false
    ∧ (init (TelegramAuth.new (some tg) now) w net).self.activityInterval = none
    ∧ (init (TelegramAuth.new (some tg) now) w net).world.timers = w.timers := by
  obtain ⟨hret, hself, htimers, hlog, -⟩ := init_no_user (TelegramAuth.new (some tg) now) w net tg rfl hu
  refine ⟨hret, hlog, ?_, ?_, ?_, ?_, htimers⟩ <;> rw [hself] <;> rfl

/-- C2 witness: a host object without a user, and a login endpoint that would answer
with success. -/
theorem C2_init_no_user_witness :
    (WebApp.mk "query_id=1" ⟨none⟩).initDataUnsafe.user = none
    ∧ (init (TelegramAuth.new (some ⟨"query_id=1", ⟨none⟩⟩) 5) (World.fresh sampleDom 5 0)
        (okAnswer (.bool true) (.str "S") .undefined)).ret = .ok false
    ∧ (init (TelegramAuth.new (some ⟨"query_id=1", ⟨none⟩⟩) 5) (World.fresh sampleDom 5 0)
        (okAnswer (.bool true) (.str "S") .undefined)).world.log = [] :=
  ⟨rfl,
    (C2_init_no_user ⟨"query_id=1", ⟨none⟩⟩ 5 (World.fresh sampleDom 5 0)
      (okAnswer (.bool true) (.str "S") .undefined) rfl).1,
    (C2_init_no_user ⟨"query_id=1", ⟨none⟩⟩ 5 (World.fresh sampleDom 5 0)
      (okAnswer (.bool true) (.str "S") .undefined) rfl).2.1⟩

/-- C3: for every non-empty message `m`, when the host payload carries a user and the
login endpoint answers with an ok status and the body `{success: false, message: m}`,
`init()` on a fresh client returns false, the text that `showError` writes to the status
element contains `m`, `sessionId` stays null, `isAuthorized` stays false and no interval
timer is started. -/
theorem C3_init_rejected (tg : WebApp) (u : HostUser) (now status : Nat) (w : World) (o : JsonObj)
    (m : String)
    (hu : tg.initDataUnsafe.user = some u) (hm : m ≠ "")
    (hs : o.success = .bool false) (hmsg : o.message = .str m) :
    (init (TelegramAuth.new (some tg) now) w (.ok ⟨true, status, .ok (.obj o)⟩)).ret = .ok false
    ∧ (∀ el, w.dom.loadingText = some el →
        (init (TelegramAuth.new (some tg) now) w (.ok ⟨true, status, .ok (.obj o)⟩)).world.dom.loadingText
          = some ⟨"❌ Ошибка авторизации: " ++ m, "#f44336"⟩
        ∧ m.data <:+: ("❌ Ошибка авторизации: " ++ m).data)
    ∧ (init (TelegramAuth.new (some tg) now) w (.ok ⟨true, status, .ok (.obj o)⟩)).self.sessionId = .null
    ∧ (init (TelegramAuth.new (some tg) now) w (.ok ⟨true, status, .ok (.obj o)⟩)).self.isAuthorized = false
    ∧ (init (TelegramAuth.new (some tg) now) w (.ok ⟨true, status, .ok (.obj o)⟩)).self.activityInterval = none
    ∧ (init (TelegramAuth.new (some tg) now) w (.ok ⟨true, status, .ok (.obj o)⟩)).world.timers = w.timers := by
  have htry := authorizeOnServer_try_failure status o (by rw [hs]; rfl)
  have hmt : (JSVal.str m).truthy = true := by simp [JSVal.truthy, hm]
  rw [hmsg] at htry
  simp only [JSVal.or, hmt, if_true, JSVal.toStr] at htry
  obtain ⟨hret, hself, htimers, -, -, htext⟩ :=
    init_error (TelegramAuth.new (some tg) now) w _ tg u _ rfl hu htry
  refine ⟨hret, ?_, ?_, ?_, ?_, htimers⟩
  · intro el hel
    refine ⟨?_, ?_⟩
    · rw [htext, hel]; rfl
    · exact ⟨"❌ Ошибка авторизации: ".data, [], by simp⟩
  · rw [hself]; rfl
  · rw [hself]; rfl
  · rw [hself]; rfl

/-- C3 witness: the message `bad signature`. -/
theorem C3_init_rejected_witness :
    (sampleHost (.num 7)).initDataUnsafe.user = some (sampleUser (.num 7))
    ∧ "bad signature" ≠ ""
    ∧ (init (TelegramAuth.new (some (sampleHost (.num 7))) 5) (World.fresh sampleDom 5 0)
        (.ok ⟨true, 200, .ok (.obj ⟨.bool false, .undefined, .str "bad signature", .undefined⟩)⟩)).ret
        = .ok false
    ∧ (init (TelegramAuth.new (some (sampleHost (.num 7))) 5) (World.fresh sampleDom 5 0)
        (.ok ⟨true, 200,
          .ok (.obj ⟨.bool false, .undefined, .str "bad signature", .undefined⟩)⟩)).world.dom.loadingText
        = some ⟨"❌ Ошибка авторизации: " ++ "bad signature", "#f44336"⟩ :=
  ⟨rfl, by decide,
    (C3_init_rejected (sampleHost (.num 7)) (sampleUser (.num 7)) 5 200 (World.fresh sampleDom 5 0)
      ⟨.bool false, .undefined, .str "bad signature", .undefined⟩ "bad signature" rfl (by decide)
      rfl rfl).1,
    ((C3_init_rejected (sampleHost (.num 7)) (sampleUser (.num 7)) 5 200 (World.fresh sampleDom 5 0)
      ⟨.bool false, .undefined, .str "bad signature", .undefined⟩ "bad signature" rfl (by decide)
      rfl rfl).2.1 _ rfl).1⟩

/-- C4 (as stated, refuted): the host user record has `language_code: ""` (present), and the
identity that `init()` stores has `language_code` `"en"`, not the host's value. -/
theorem C4_counterexample :
    (HostUser.mk (.num 7) (some "ann") (some "Ann") none (some "") none).language_code = some ""
    ∧ ((init (TelegramAuth.new (some ⟨"", ⟨some ⟨.num 7, some "ann", some "Ann", none, some "", none⟩⟩⟩) 0)
          (World.fresh sampleDom 0 0) (.error "offline")).self.user.map (fun i => i.language_code))
        = some (.str "en")
    ∧ JSVal.str "en" ≠ JSVal.str "" := by
  refine ⟨rfl, rfl, ?_⟩
  decide

/-- C4 (amended): for every host user record with id `i`, the identity that `init()` stores
has `username` equal to `"user_"` followed by `i` when the username is missing or empty and
the host's username otherwise; `first_name` and `last_name` are the host's value, or the
empty string when absent; `language_code` is `"en"` when the field is absent or empty and the
host's value otherwise; `is_premium` is the host's value, or false when absent. -/
theorem C4_identity_defaults (self : TelegramAuth) (w : World) (net : FetchOutcome) (tg : WebApp)
    (u : HostUser) (htg : self.tg = some tg) (hu : tg.initDataUnsafe.user = some u) :
    ∃ ident, (init self w net).self.user = some ident
      ∧ ident.id = u.id
      ∧ (u.username = none ∨ u.username = some "" → ident.username = .str ("user_" ++ u.id.toStr))
      ∧ (∀ s, u.username = some s → s ≠ "" → ident.username = .str s)
      ∧ ident.first_name = .str (u.first_name.getD "")
      ∧ ident.last_name = .str (u.last_name.getD "")
      ∧ (u.language_code = none ∨ u.language_code = some "" → ident.language_code = .str "en")
      ∧ (∀ s, u.language_code = some s → s ≠ "" → ident.language_code = .str s)
      ∧ ident.is_premium = .bool (u.is_premium.getD false) := by
  refine ⟨mkIdentity u, init_user self w net tg u htg hu, rfl, ?_, ?_, ?_, ?_, ?_, ?_, ?_⟩
  · rintro (h | h) <;> simp [mkIdentity, h, JSVal.ofStr?, JSVal.or, JSVal.truthy]
  · intro s h hs; simp [mkIdentity, h, JSVal.ofStr?, JSVal.or, JSVal.truthy, hs]
  · cases h : u.first_name <;> simp [mkIdentity, h, JSVal.ofStr?, JSVal.or, JSVal.truthy]
    intro h2; exact h2.symm
  · cases h : u.last_name <;> simp [mkIdentity, h, JSVal.ofStr?, JSVal.or, JSVal.truthy]
    intro h2; exact h2.symm
  · rintro (h | h) <;> simp [mkIdentity, h, JSVal.ofStr?, JSVal.or, JSVal.truthy]
  · intro s h hs; simp [mkIdentity, h, JSVal.ofStr?, JSVal.or, JSVal.truthy, hs]
  · rcases h : u.is_premium with _ | b
    · simp [mkIdentity, h, JSVal.ofBool?, JSVal.or, JSVal.truthy]
    · cases b <;> simp [mkIdentity, h, JSVal.ofBool?, JSVal.or, JSVal.truthy]

/-- C4 witness: a host user with only `id` and `first_name`. -/
theorem C4_identity_defaults_witness :
    (TelegramAuth.new (some (sampleHost (.num 7))) 0).tg = some (sampleHost (.num 7))
    ∧ (sampleHost (.num 7)).initDataUnsafe.user = some (sampleUser (.num 7))
    ∧ ∃ ident, (init (TelegramAuth.new (some (sampleHost (.num 7))) 0) (World.fresh sampleDom 0 0)
          (.error "offline")).self.user = some ident
        ∧ ident.username = .str ("user_" ++ (JSVal.num 7).toStr)
        ∧ ident.language_code = .str "en" :=
  ⟨rfl, rfl,
    (C4_identity_defaults (TelegramAuth.new (some (sampleHost (.num 7))) 0) (World.fresh sampleDom 0 0)
      (.error "offline") (sampleHost (.num 7)) (sampleUser (.num 7)) rfl rfl).elim
      (fun ident h => ⟨ident, h.1, h.2.2.1 (Or.inl rfl), h.2.2.2.2.2.2.1 (Or.inl rfl)⟩)⟩

/-- C5 (as stated, refuted): after an `init()` whose login answer is `{success: true}`
without a session id the heartbeat timer is running, and it is still running after
`logout()`. -/
theorem C5_counterexample :
    heartbeatRunning
        (run [.init (okAnswer (.bool true) .undefined .undefined)]
          (fresh (some (sampleHost (.num 7))) sampleDom 0 0)).1
        (run [.init (okAnswer (.bool true) .undefined .undefined)]
          (fresh (some (sampleHost (.num 7))) sampleDom 0 0)).2 = true
    ∧ heartbeatRunning
        (logout
          (run [.init (okAnswer (.bool true) .undefined .undefined)]
            (fresh (some (sampleHost (.num 7))) sampleDom 0 0)).1
          (run [.init (okAnswer (.bool true) .undefined .undefined)]
            (fresh (some (sampleHost (.num 7))) sampleDom 0 0)).2
          (okAnswer (.bool true) .undefined .undefined)).self
        (logout
          (run [.init (okAnswer (.bool true) .undefined .undefined)]
            (fresh (some (sampleHost (.num 7))) sampleDom 0 0)).1
          (run [.init (okAnswer (.bool true) .undefined .undefined)]
            (fresh (some (sampleHost (.num 7))) sampleDom 0 0)).2
          (okAnswer (.bool true) .undefined .undefined)).world = true :=
  ⟨rfl, rfl⟩

/-- C5 (amended): for every state in which `sessionId` is set (truthy) and the heartbeat
timer is running, and for every outcome of the logout request, after `logout()` the
heartbeat timer is no longer active. -/
theorem C5_logout_clears_timer (self : TelegramAuth) (w : World) (net : FetchOutcome)
    (hs : self.sessionId.truthy = true) (hrun : heartbeatRunning self w = true) :
    heartbeatRunning (logout self w net).self (logout self w net).world = false
    ∧ ∀ h, self.activityInterval = some h → h ∉ (logout self w net).world.timers := by
  unfold heartbeatRunning at hrun
  cases hai : self.activityInterval with
  | none => rw [hai] at hrun; simp at hrun
  | some h =>
    rw [hai] at hrun
    simp only [Bool.and_eq_true, bne_iff_ne, ne_eq] at hrun
    have hw : (logout self w net).world.timers = w.timers.filter (fun k => k != h)
        ∧ (logout self w net).self = self := by
      unfold logout
      simp only [hs, hai, hrun.1]
      cases self.user <;> simp [World.clearInterval, World.fetch, hrun.1]
    refine ⟨?_, ?_⟩
    · simp [heartbeatRunning, hw.1, hw.2, hai]
    · intro k hk
      cases hk
      simp [hw.1]

/-- C5 witness: the state right after `init()` succeeded with session id `S`, and a
logout request that is rejected by the network. -/
theorem C5_logout_clears_timer_witness :
    (init (TelegramAuth.new (some (sampleHost (.num 7))) 5) (World.fresh sampleDom 5 0)
        (okAnswer (.bool true) (.str "S") .undefined)).self.sessionId.truthy = true
    ∧ heartbeatRunning
        (init (TelegramAuth.new (some (sampleHost (.num 7))) 5) (World.fresh sampleDom 5 0)
          (okAnswer (.bool true) (.str "S") .undefined)).self
        (init (TelegramAuth.new (some (sampleHost (.num 7))) 5) (World.fresh sampleDom 5 0)
          (okAnswer (.bool true) (.str "S") .undefined)).world = true
    ∧ heartbeatRunning
        (logout
          (init (TelegramAuth.new (some (sampleHost (.num 7))) 5) (World.fresh sampleDom 5 0)
            (okAnswer (.bool true) (.str "S") .undefined)).self
          (init (TelegramAuth.new (some (sampleHost (.num 7))) 5) (World.fresh sampleDom 5 0)
            (okAnswer (.bool true) (.str "S") .undefined)).world (.error "Failed to fetch")).self
        (logout
          (init (TelegramAuth.new (some (sampleHost (.num 7))) 5) (World.fresh sampleDom 5 0)
            (okAnswer (.bool true) (.str "S") .undefined)).self
          (init (TelegramAuth.new (some (sampleHost (.num 7))) 5) (World.fresh sampleDom 5 0)
            (okAnswer (.bool true) (.str "S") .undefined)).world (.error "Failed to fetch")).world
        = false :=
  ⟨rfl, rfl,
    (C5_logout_clears_timer
      (init (TelegramAuth.new (some (sampleHost (.num 7))) 5) (World.fresh sampleDom 5 0)
        (okAnswer (.bool true) (.str "S") .undefined)).self
      (init (TelegramAuth.new (some (sampleHost (.num 7))) 5) (World.fresh sampleDom 5 0)
        (okAnswer (.bool true) (.str "S") .undefined)).world (.error "Failed to fetch") rfl rfl).1⟩

/-- A tick does nothing while no interval timer is active. -/
theorem run_ticks_idle (ticks : List (Nat × FetchOutcome)) (st : TelegramAuth × World)
    (h : st.2.timers = []) :
    run (ticks.map (fun t => Op.tick t.1 t.2)) st = st := by
  induction ticks with
  | nil => rfl
  | cons t ts ih =>
    have hstep : step st (.tick t.1 t.2) = st := by
      simp [step, tick, h]
    simp only [run, List.map_cons, List.foldl_cons, hstep]
    exact ih

/-- While the heartbeat timer is active and a session id is held, a tick sends one
heartbeat request. -/
theorem tick_sends_heartbeat (self : TelegramAuth) (w : World) (h : Nat) (net : FetchOutcome)
    (u : Identity) (hu : self.user = some u) (hs : self.sessionId.truthy = true)
    (hh : w.timers.contains h = true) :
    (tick self w h net).world.log = w.log ++ [(activityRequest u.id self.sessionId w.now, net)] := by
  have hmem : h ∈ w.timers := by simpa using hh
  simp [tick, hmem, updateActivity, hs, hu, World.fetch]

/-- C6: after `init()` on a fresh client has succeeded with a login answer carrying the
session id `S` (a non-empty token), one call to `logout()` sends exactly one request, with
body `{action: "logout", user_id: <the identity's id>, session_id: S}`, and cancels the
heartbeat timer: no timer is active, and no tick after it issues any request. -/
theorem C6_logout_after_login (tg : WebApp) (u : HostUser) (dom : Dom) (now lastHandle status : Nat)
    (o : JsonObj) (S : String) (net : FetchOutcome)
    (hu : tg.initDataUnsafe.user = some u)
    (hs : o.success = .bool true) (hsid : o.session_id = .str S) (hS : S ≠ "") :
    (init (TelegramAuth.new (some tg) now) (World.fresh dom now lastHandle)
        (.ok ⟨true, status, .ok (.obj o)⟩)).ret = .ok true
    ∧ (logout
        (init (TelegramAuth.new (some tg) now) (World.fresh dom now lastHandle)
          (.ok ⟨true, status, .ok (.obj o)⟩)).self
        (init (TelegramAuth.new (some tg) now) (World.fresh dom now lastHandle)
          (.ok ⟨true, status, .ok (.obj o)⟩)).world net).world.log
        = (init (TelegramAuth.new (some tg) now) (World.fresh dom now lastHandle)
            (.ok ⟨true, status, .ok (.obj o)⟩)).world.log
          ++ [(⟨"auth/telegram_auth.php",
                [("action", .val (.str "logout")), ("user_id", .val u.id),
                  ("session_id", .val (.str S))]⟩, net)]
    ∧ (logout
        (init (TelegramAuth.new (some tg) now) (World.fresh dom now lastHandle)
          (.ok ⟨true, status, .ok (.obj o)⟩)).self
        (init (TelegramAuth.new (some tg) now) (World.fresh dom now lastHandle)
          (.ok ⟨true, status, .ok (.obj o)⟩)).world net).world.timers = []
    ∧ ∀ ticks : List (Nat × FetchOutcome),
        (run (ticks.map (fun t => Op.tick t.1 t.2))
          ((logout
              (init (TelegramAuth.new (some tg) now) (World.fresh dom now lastHandle)
                (.ok ⟨true, status, .ok (.obj o)⟩)).self
              (init (TelegramAuth.new (some tg) now) (World.fresh dom now lastHandle)
                (.ok ⟨true, status, .ok (.obj o)⟩)).world net).self,
            (logout
              (init (TelegramAuth.new (some tg) now) (World.fresh dom now lastHandle)
                (.ok ⟨true, status, .ok (.obj o)⟩)).self
              (init (TelegramAuth.new (some tg) now) (World.fresh dom now lastHandle)
                (.ok ⟨true, status, .ok (.obj o)⟩)).world net).world)).2.log
        = (logout
            (init (TelegramAuth.new (some tg) now) (World.fresh dom now lastHandle)
              (.ok ⟨true, status, .ok (.obj o)⟩)).self
            (init (TelegramAuth.new (some tg) now) (World.fresh dom now lastHandle)
              (.ok ⟨true, status, .ok (.obj o)⟩)).world net).world.log := by
  have htry := authorizeOnServer_try_success status o (by rw [hs]; rfl)
  rw [hsid] at htry
  obtain ⟨hret, hself⟩ :=
    init_ok_self (TelegramAuth.new (some tg) now) (World.fresh dom now lastHandle) _ tg u _ rfl hu htry
  obtain ⟨htimers, -, -⟩ :=
    init_ok_world (TelegramAuth.new (some tg) now) (World.fresh dom now lastHandle) _ tg u _ rfl hu htry
  generalize init (TelegramAuth.new (some tg) now) (World.fresh dom now lastHandle)
    (.ok ⟨true, status, .ok (.obj o)⟩) = r at hret hself htimers ⊢
  have hST : (JSVal.str S).truthy = true := by simp [JSVal.truthy, hS]
  have hlog : (logout r.self r.world net).world.log
      = r.world.log ++ [(logoutRequest u.id (.str S), net)]
      ∧ (logout r.self r.world net).world.timers = [] := by
    unfold logout
    simp [hself, hST, World.clearInterval, World.fetch, htimers, World.fresh, mkIdentity]
  refine ⟨hret, hlog.1, hlog.2, ?_⟩
  intro ticks
  rw [run_ticks_idle ticks _ hlog.2]

/-- C6 witness: the session id `S` itself, a user with id `7`, and a logout request that
the network rejects. -/
theorem C6_logout_after_login_witness :
    (sampleHost (.num 7)).initDataUnsafe.user = some (sampleUser (.num 7))
    ∧ "S" ≠ ""
    ∧ (logout
        (init (TelegramAuth.new (some (sampleHost (.num 7))) 5) (World.fresh sampleDom 5 0)
          (.ok ⟨true, 200, .ok (.obj ⟨.bool true, .str "S", .undefined, .undefined⟩)⟩)).self
        (init (TelegramAuth.new (some (sampleHost (.num 7))) 5) (World.fresh sampleDom 5 0)
          (.ok ⟨true, 200, .ok (.obj ⟨.bool true, .str "S", .undefined, .undefined⟩)⟩)).world
        (.error "Failed to fetch")).world.log
        = (init (TelegramAuth.new (some (sampleHost (.num 7))) 5) (World.fresh sampleDom 5 0)
            (.ok ⟨true, 200, .ok (.obj ⟨.bool true, .str "S", .undefined, .undefined⟩)⟩)).world.log
          ++ [(⟨"auth/telegram_auth.php",
                [("action", .val (.str "logout")), ("user_id", .val (sampleUser (.num 7)).id),
                  ("session_id", .val (.str "S"))]⟩, .error "Failed to fetch")]
    ∧ (logout
        (init (TelegramAuth.new (some (sampleHost (.num 7))) 5) (World.fresh sampleDom 5 0)
          (.ok ⟨true, 200, .ok (.obj ⟨.bool true, .str "S", .undefined, .undefined⟩)⟩)).self
        (init (TelegramAuth.new (some (sampleHost (.num 7))) 5) (World.fresh sampleDom 5 0)
          (.ok ⟨true, 200, .ok (.obj ⟨.bool true, .str "S", .undefined, .undefined⟩)⟩)).world
        (.error "Failed to fetch")).world.timers = [] :=
  ⟨rfl, by decide,
    (C6_logout_after_login (sampleHost (.num 7)) (sampleUser (.num 7)) sampleDom 5 0 200
      ⟨.bool true, .str "S", .undefined, .undefined⟩ "S" (.error "Failed to fetch") rfl rfl rfl
      (by decide)).2.1,
    (C6_logout_after_login (sampleHost (.num 7)) (sampleUser (.num 7)) sampleDom 5 0 200
      ⟨.bool true, .str "S", .undefined, .undefined⟩ "S" (.error "Failed to fetch") rfl rfl rfl
      (by decide)).2.2.1⟩

/-- C7: in every state in which `sessionId` is absent (or otherwise falsy), `logout()`
makes no request, does not throw, and leaves the client and its surroundings unchanged. -/
theorem C7_logout_without_session (self : TelegramAuth) (w : World) (net : FetchOutcome)
    (h : self.sessionId.truthy = false) :
    (logout self w net).ret = .ok ()
    ∧ (logout self w net).world.log = w.log
    ∧ (logout self w net).self = self
    ∧ (logout self w net).world = w := by
  unfold logout
  simp [h]

/-- C7 witness: a fresh client, which holds no session id. -/
theorem C7_logout_without_session_witness :
    (TelegramAuth.new (some (sampleHost (.num 7))) 5).sessionId.truthy = false
    ∧ (logout (TelegramAuth.new (some (sampleHost (.num 7))) 5) (World.fresh sampleDom 5 0)
        (okAnswer (.bool true) .undefined .undefined)).ret = .ok ()
    ∧ (logout (TelegramAuth.new (some (sampleHost (.num 7))) 5) (World.fresh sampleDom 5 0)
        (okAnswer (.bool true) .undefined .undefined)).world.log = [] :=
  ⟨rfl,
    (C7_logout_without_session (TelegramAuth.new (some (sampleHost (.num 7))) 5) (World.fresh sampleDom 5 0)
      (okAnswer (.bool true) .undefined .undefined) rfl).1,
    (C7_logout_without_session (TelegramAuth.new (some (sampleHost (.num 7))) 5) (World.fresh sampleDom 5 0)
      (okAnswer (.bool true) .undefined .undefined) rfl).2.1⟩

/-- C8: for every `videoId` `v`: when `user` is null, `toggleFavorite(v)` returns false and
makes no request; when `user` is present it makes exactly one request, whose body has
`action` `"toggle_favorite"`, `video_id` `v` and `user_id` the identity's id, and it returns
the `success` property of the parsed answer unchanged; when the request is rejected or the
answer cannot be parsed it returns false; it never throws. -/
theorem C8_toggleFavorite (self : TelegramAuth) (w : World) (v : JSVal) (net : FetchOutcome) :
    (self.user = none →
      (toggleFavorite self w v net).ret = .ok (.bool false)
      ∧ (toggleFavorite self w v net).world.log = w.log)
    ∧ (∀ u, self.user = some u →
        (toggleFavorite self w v net).world.log
          = w.log ++ [(⟨"auth/update_user_data.php",
                [("user_id", .val u.id), ("action", .val (.str "toggle_favorite")),
                  ("video_id", .val v)]⟩, net)]
        ∧ (∀ ok status o, net = .ok ⟨ok, status, .ok (.obj o)⟩ →
            (toggleFavorite self w v net).ret = .ok o.success)
        ∧ (∀ m, net = .error m → (toggleFavorite self w v net).ret = .ok (.bool false))
        ∧ (∀ ok status m, net = .ok ⟨ok, status, .error m⟩ →
            (toggleFavorite self w v net).ret = .ok (.bool false)))
    ∧ (∃ r, (toggleFavorite self w v net).ret = .ok r)
    ∧ (toggleFavorite self w v net).self = self := by
  unfold toggleFavorite
  cases hu : self.user with
  | none => simp
  | some u =>
    simp only [reduceCtorEq, false_implies, true_and, Option.some.injEq, forall_eq']
    refine ⟨⟨?_, ?_, ?_, ?_⟩, ?_, ?_⟩
    · cases readSuccess net <;> rfl
    · rintro ok status o rfl; rfl
    · rintro m rfl; rfl
    · rintro ok status m rfl; rfl
    · cases readSuccess net <;> simp
    · cases readSuccess net <;> simp

/-- C8 witness: a client holding an identity, and an answer `{success: true}`. -/
theorem C8_toggleFavorite_witness :
    (toggleFavorite (TelegramAuth.mk none (some (mkIdentity (sampleUser (.num 7)))) .null 0 none false)
        (World.fresh sampleDom 0 0) (.num 42) (okAnswer (.bool true) .undefined .undefined)).ret
      = .ok (.bool true)
    ∧ (toggleFavorite (TelegramAuth.new none 0) (World.fresh sampleDom 0 0) (.num 42)
        (okAnswer (.bool true) .undefined .undefined)).ret = .ok (.bool false) :=
  ⟨((C8_toggleFavorite (TelegramAuth.mk none (some (mkIdentity (sampleUser (.num 7)))) .null 0 none false)
      (World.fresh sampleDom 0 0) (.num 42) (okAnswer (.bool true) .undefined .undefined)).2.1
      _ rfl).2.1 true 200 _ rfl,
    ((C8_toggleFavorite (TelegramAuth.new none 0) (World.fresh sampleDom 0 0) (.num 42)
      (okAnswer (.bool true) .undefined .undefined)).1 rfl).1⟩

/-- The login `try` block completes exactly on the answers that report success. -/
theorem loginSuccess_eq (net : FetchOutcome) :
    loginSuccess net = (authorizeOnServer_try net).toOption := by
  rcases net with m | ⟨ok, status, json⟩
  · rfl
  · cases ok
    · rfl
    · rcases json with m | j
      · rfl
      · cases j with
        | null => rfl
        | obj o =>
          cases h : o.success.truthy <;> simp [loginSuccess, authorizeOnServer_try, h, Except.toOption]

theorem lastSessionId_append (log : List (Request × FetchOutcome)) (req : Request)
    (net : FetchOutcome) :
    lastSessionId (log ++ [(req, net)])
      = if req.isLogin then (loginSuccess net).getD (lastSessionId log) else lastSessionId log := by
  unfold lastSessionId
  rw [List.foldl_append]
  simp only [List.foldl_cons, List.foldl_nil]
  cases req.isLogin <;> simp
  cases loginSuccess net <;> rfl

theorem isLogin_loginRequest (user : Option Identity) (initData : String) :
    (loginRequest user initData).isLogin = true := rfl

theorem isLogin_logoutRequest (a b : JSVal) : (logoutRequest a b).isLogin = false := rfl

theorem isLogin_activityRequest (a b : JSVal) (n : Nat) : (activityRequest a b n).isLogin = false :=
  rfl

theorem isLogin_userDataRequest (a : JSVal) (n : Nat) : (userDataRequest a n).isLogin = false := by
  have h : ("auth/get_user_data.php?cachebuster=" ++ toString n) ≠ "auth/telegram_auth.php" := by
    intro h
    have h2 := congrArg String.length h
    simp [String.length_append] at h2
    have h3 : ("auth/get_user_data.php?cachebuster=" : String).length = 35 := by decide
    have h4 : ("auth/telegram_auth.php" : String).length = 22 := by decide
    omega
  simp [Request.isLogin, userDataRequest, h]

theorem isLogin_userActionRequest (a b c : JSVal) : (userActionRequest a b c).isLogin = false := rfl

theorem quiet_of_same (st st1 : TelegramAuth × World) (h1 : st1.1 = st.1) (h2 : st1.2.log = st.2.log) :
    Quiet st st1 := by
  refine ⟨by rw [h1], by rw [h1], ?_, by rw [h2]⟩
  rw [h1]; exact id

theorem quiet_of_append (st st1 : TelegramAuth × World) (req : Request) (net : FetchOutcome)
    (h1 : st1.1 = st.1) (h2 : st1.2.log = st.2.log ++ [(req, net)]) (h3 : req.isLogin = false) :
    Quiet st st1 := by
  refine ⟨by rw [h1], by rw [h1], ?_, ?_⟩
  · rw [h1]; exact id
  · rw [h2, lastSessionId_append, h3]; rfl

theorem init_step (self : TelegramAuth) (w : World) (net : FetchOutcome) :
    Quiet (self, w) ((init self w net).self, (init self w net).world)
    ∨ (LoggedIn ((init self w net).self, (init self w net).world)
        ∧ (init self w net).self.isAuthorized = true) := by
  cases htg : self.tg with
  | none =>
    obtain ⟨-, hself, -, hlog, -⟩ := init_no_host self w net htg
    exact Or.inl (quiet_of_same _ _ hself hlog)
  | some tg =>
    cases hu : tg.initDataUnsafe.user with
    | none =>
      obtain ⟨-, hself, -, hlog, -⟩ := init_no_user self w net tg htg hu
      exact Or.inl (quiet_of_same _ _ hself hlog)
    | some u =>
      cases h : authorizeOnServer_try net with
      | ok sid =>
        obtain ⟨-, hself⟩ := init_ok_self self w net tg u sid htg hu h
        obtain ⟨-, hlog, -⟩ := init_ok_world self w net tg u sid htg hu h
        refine Or.inr ⟨⟨?_, ?_⟩, ?_⟩
        · simp [hself]
        · simp only [hlog, lastSessionId_append, isLogin_loginRequest, loginSuccess_eq, h, if_true,
            Except.toOption, Option.getD_some]
          rw [hself]
        · rw [hself]
      | error m =>
        obtain ⟨-, hself, -, hlog, -, -⟩ := init_error self w net tg u m htg hu h
        refine Or.inl ⟨?_, ?_, ?_, ?_⟩
        · simp [hself]
        · simp [hself]
        · intro _; simp [hself]
        · simp only [hlog, lastSessionId_append, isLogin_loginRequest, loginSuccess_eq, h, if_true,
            Except.toOption, Option.getD_none]

theorem updateActivity_step (self : TelegramAuth) (w : World) (net : FetchOutcome) :
    Quiet (self, w) ((updateActivity self w net).self, (updateActivity self w net).world) := by
  unfold updateActivity
  split
  · exact quiet_of_same _ _ rfl rfl
  · split
    · exact quiet_of_same _ _ rfl rfl
    · exact quiet_of_append _ _ _ net rfl rfl (isLogin_activityRequest _ _ _)

theorem logout_step (self : TelegramAuth) (w : World) (net : FetchOutcome) :
    Quiet (self, w) ((logout self w net).self, (logout self w net).world) := by
  have hself : (logout self w net).self = self := by
    unfold logout
    cases self.sessionId.truthy <;> cases self.user <;> rcases self.activityInterval with _ | h <;>
      simp only [Bool.not_true, Bool.not_false, if_true, if_false, Bool.false_eq_true] <;>
      first | rfl | (split <;> rfl)
  have hlog : (logout self w net).world.log = w.log
      ∨ ∃ a b, (logout self w net).world.log = w.log ++ [(logoutRequest a b, net)] := by
    unfold logout
    cases self.sessionId.truthy
    · exact Or.inl rfl
    · rcases self.user with _ | u
      · left
        rcases self.activityInterval with _ | h
        · rfl
        · simp only [Bool.not_true, if_false, Bool.false_eq_true]
          split <;> rfl
      · right
        refine ⟨u.id, self.sessionId, ?_⟩
        rcases self.activityInterval with _ | h
        · rfl
        · simp only [Bool.not_true, if_false, Bool.false_eq_true]
          split <;> rfl
  rcases hlog with h | ⟨a, b, h⟩
  · exact quiet_of_same _ _ hself h
  · exact quiet_of_append _ _ _ net hself h (isLogin_logoutRequest _ _)

theorem getUserData_step (self : TelegramAuth) (w : World) (net : FetchOutcome) :
    Quiet (self, w) ((getUserData self w net).self, (getUserData self w net).world) := by
  unfold getUserData
  split
  · exact quiet_of_same _ _ rfl rfl
  · split <;> exact quiet_of_append _ _ _ net rfl rfl (isLogin_userDataRequest _ _)

theorem toggleFavorite_step (self : TelegramAuth) (w : World) (v : JSVal) (net : FetchOutcome) :
    Quiet (self, w) ((toggleFavorite self w v net).self, (toggleFavorite self w v net).world) := by
  unfold toggleFavorite
  split
  · exact quiet_of_same _ _ rfl rfl
  · split <;> exact quiet_of_append _ _ _ net rfl rfl (isLogin_userActionRequest _ _ _)

theorem updateReaction_step (self : TelegramAuth) (w : World) (a v : JSVal) (net : FetchOutcome) :
    Quiet (self, w) ((updateReaction self w a v net).self, (updateReaction self w a v net).world) := by
  unfold updateReaction
  split
  · exact quiet_of_same _ _ rfl rfl
  · split <;> exact quiet_of_append _ _ _ net rfl rfl (isLogin_userActionRequest _ _ _)

/-- Every step of a run is quiet or a successful login. -/
theorem step_cases (st : TelegramAuth × World) (op : Op) :
    Quiet st (step st op) ∨ (LoggedIn (step st op) ∧ (step st op).1.isAuthorized = true) := by
  obtain ⟨self, w⟩ := st
  cases op with
  | init net => exact init_step self w net
  | logout net => exact Or.inl (logout_step self w net)
  | updateActivity net => exact Or.inl (updateActivity_step self w net)
  | getUserData net => exact Or.inl (getUserData_step self w net)
  | toggleFavorite v net => exact Or.inl (toggleFavorite_step self w v net)
  | updateReaction a v net => exact Or.inl (updateReaction_step self w a v net)
  | tick h net =>
    left
    simp only [step, tick]
    split
    · exact updateActivity_step self w net
    · exact quiet_of_same _ _ rfl rfl
  | stamp => exact Or.inl ⟨rfl, rfl, id, rfl⟩
  | clock now => exact Or.inl ⟨rfl, rfl, id, rfl⟩
  | host p => exact Or.inl ⟨rfl, rfl, id, rfl⟩

theorem inv_step (st : TelegramAuth × World) (op : Op) (h : Inv st) : Inv (step st op) := by
  rcases step_cases st op with ⟨h1, h2, h3, h4⟩ | ⟨⟨h1, h2⟩, _⟩
  · exact ⟨by rw [h1, h4]; exact h.1, fun ha => h3 (h.2 (by rw [← h2]; exact ha))⟩
  · exact ⟨h2, fun _ => h1⟩

theorem inv_run (ops : List Op) (st : TelegramAuth × World) (h : Inv st) : Inv (run ops st) := by
  induction ops generalizing st with
  | nil => exact h
  | cons op ops ih => exact ih (step st op) (inv_step st op h)

theorem inv_fresh (tg : Option WebApp) (dom : Dom) (now lastHandle : Nat) :
    Inv (fresh tg dom now lastHandle) :=
  ⟨rfl, fun h => by simp [fresh, TelegramAuth.new] at h⟩

/-- C9 (as stated, refuted): after a successful login with session id `S` followed by
`logout()`, `sessionId` is still `S` although no login call has returned success since
that logout. -/
theorem C9_counterexample :
    (run [.init (okAnswer (.bool true) (.str "S") .undefined),
          .logout (okAnswer (.bool true) .undefined .undefined)]
        (fresh (some (sampleHost (.num 7))) sampleDom 0 0)).1.sessionId = .str "S"
    ∧ liveSession
        (run [.init (okAnswer (.bool true) (.str "S") .undefined),
              .logout (okAnswer (.bool true) .undefined .undefined)]
          (fresh (some (sampleHost (.num 7))) sampleDom 0 0)).2.log = false
    ∧ ¬ ((run [.init (okAnswer (.bool true) (.str "S") .undefined),
              .logout (okAnswer (.bool true) .undefined .undefined)]
            (fresh (some (sampleHost (.num 7))) sampleDom 0 0)).1.sessionId.truthy = true
          ↔ liveSession
              (run [.init (okAnswer (.bool true) (.str "S") .undefined),
                    .logout (okAnswer (.bool true) .undefined .undefined)]
                (fresh (some (sampleHost (.num 7))) sampleDom 0 0)).2.log = true) := by
  refine ⟨rfl, rfl, ?_⟩
  decide

/-- C9 (amended): in every state reachable from a fresh client, `sessionId` is null when no
login call has returned success since construction, and otherwise it is the `session_id`
of the most recent login answer that reported success; a logout does not reset it. -/
theorem C9_sessionId_history (tg : Option WebApp) (dom : Dom) (now lastHandle : Nat)
    (ops : List Op) :
    (run ops (fresh tg dom now lastHandle)).1.sessionId
      = lastSessionId (run ops (fresh tg dom now lastHandle)).2.log :=
  (inv_run ops _ (inv_fresh tg dom now lastHandle)).1

/-- C10: in every state reachable from a fresh client, `isAuthorized` being true implies
that `user` is present, and `isUserAuthorized()` equals the `isAuthorized` field. -/
theorem C10_authorized_has_user (tg : Option WebApp) (dom : Dom) (now lastHandle : Nat)
    (ops : List Op) :
    ((run ops (fresh tg dom now lastHandle)).1.isAuthorized = true →
      (run ops (fresh tg dom now lastHandle)).1.user ≠ none)
    ∧ isUserAuthorized (run ops (fresh tg dom now lastHandle)).1
        = (run ops (fresh tg dom now lastHandle)).1.isAuthorized := by
  have h := (inv_run ops _ (inv_fresh tg dom now lastHandle)).2
  refine ⟨fun ha hn => ?_, ?_⟩
  · have := h ha
    rw [hn] at this
    simp at this
  · unfold isUserAuthorized
    cases ha : (run ops (fresh tg dom now lastHandle)).1.isAuthorized
    · rfl
    · simp [h ha]

/-- C10 witness: a run with a successful login, a logout and a rejected second login. -/
theorem C10_authorized_has_user_witness :
    isUserAuthorized
        (run [.init (okAnswer (.bool true) (.str "S") .undefined), .logout (.error "Failed to fetch"),
              .init (okAnswer (.bool false) .undefined (.str "bad signature"))]
          (fresh (some (sampleHost (.num 7))) sampleDom 0 0)).1
      = (run [.init (okAnswer (.bool true) (.str "S") .undefined), .logout (.error "Failed to fetch"),
              .init (okAnswer (.bool false) .undefined (.str "bad signature"))]
          (fresh (some (sampleHost (.num 7))) sampleDom 0 0)).1.isAuthorized :=
  (C10_authorized_has_user (some (sampleHost (.num 7))) sampleDom 0 0
    [.init (okAnswer (.bool true) (.str "S") .undefined), .logout (.error "Failed to fetch"),
      .init (okAnswer (.bool false) .undefined (.str "bad signature"))]).2

end TelegramAuthJS
